import Mathlib

/-!
Shallow embedding of the Custom-template-CLI scaffolding workflow
(src/lib/index.js, flag-based variant, and src/unnamed/part_000, the
interactive variant).

External effects — console output, filesystem mutation, spawned
processes, process exit — are modelled as an explicit event trace paired
with an explicit state of the target directory.  The outcomes of the
external processes the workflow consults (the git probe, the clone, the
stat, the history reset, the npm install exit code) and the result of
the npm package-name validator are inputs of a run, collected in `Env`.
chalk color wrappers are presentation only and are dropped from the
logged strings.
-/

namespace CLI

/-- Prefix test on strings through their character lists. -/
def strStartsWith (p s : String) : Bool :=
  p.toList.isPrefixOf s.toList

/-- JavaScript String.prototype.includes: substring membership test. -/
def strContains (s pat : String) : Bool :=
  s.toList.tails.any (fun t => pat.toList.isPrefixOf t)

/-- JavaScript template-literal rendering of a possibly-undefined string:
`undefined` interpolates as the literal text "undefined". -/
def jsShow : Option String → String
  | none => "undefined"
  | some s => s

/-- JavaScript falsiness of a possibly-undefined string: `undefined` and
the empty string are falsy, every other string is truthy. -/
def jsFalsy : Option String → Bool
  | none => true
  | some s => s == ""

/-- JavaScript String.prototype.trim over the character list. -/
def strTrim (s : String) : String :=
  String.mk (((s.toList.dropWhile Char.isWhitespace).reverse.dropWhile
    Char.isWhitespace).reverse)

/-- Splitting a character list at every occurrence of a separator. -/
def splitOnChar (c : Char) (cs : List Char) : List (List Char) :=
  cs.foldr
    (fun ch acc =>
      if ch = c then [] :: acc
      else
        match acc with
        | [] => [[ch]]
        | a :: rest => (ch :: a) :: rest)
    [[]]

/-- path.resolve of the requested name against the current working
directory.  Segment normalization (dot and dot-dot) is not modelled; no
claim depends on it. -/
def pathResolve (cwd name : String) : String :=
  if strStartsWith "/" name then name else cwd ++ "/" ++ name

/-- path.basename (posix): the final nonempty path segment. -/
def pathBasename (p : String) : String :=
  ((((splitOnChar '/' p.toList).filter (fun s => !s.isEmpty)).getLast?).map
    String.mk).getD ""

/-- Observable external actions of one run of the workflow. -/
inductive Event where
  | logOut (s : String)
  | logErr (s : String)
  | ensureDir (path : String)
  | emptyDir (path : String)
  | statPath (path : String)
  | execCmd (cwd : Option String) (cmd : String)
  | spawnProc (cwd : String) (cmd : String)
  | exitProc (code : Nat)
deriving DecidableEq, Repr

/-- A value thrown or rejected inside the workflow: either a raised
error (from exec or fs.stat) or the plain rejection object of the
installer, which carries only the attempted command line. -/
inductive JsError where
  | exn (message : String)
  | rejectObj (command : String)
deriving DecidableEq, Repr

/-- console.error rendering of a caught value. -/
def errDisplay : JsError → String
  | .exn m => m
  | .rejectObj c => "command: " ++ c

/-- State of the target directory: whether it exists and the names of
its entries. -/
structure DirState where
  dirExists : Bool
  contents : List String
deriving DecidableEq, Repr

/-- Outcome of a completed exec call: captured stdout and stderr. -/
structure ExecResult where
  stdout : String
  stderr : String
deriving DecidableEq, Repr

/-- Result of fs.stat, reduced to the one field the workflow reads. -/
structure FileStats where
  isDirectory : Bool
deriving DecidableEq, Repr

/-- Shape of a validate-npm-package-name result for one candidate name.
The library guarantees that a result with validForNewPackages false has
at least one error or warning message. -/
structure ValidationResult where
  validForNewPackages : Bool
  errors : List String
  warnings : List String
deriving DecidableEq, Repr

/-- Inputs of one run: the environment and the outcomes of every
external process the workflow consults. -/
structure Env where
  cwd : String
  progName : String
  nodeVersion : String
  nodeVersionOk : Bool
  validation : String → ValidationResult
  gitProbe : ExecResult
  cloneResult : Except JsError Unit
  clonedFiles : List String
  statResult : Except JsError FileStats
  resetResult : Except JsError Unit
  installExitCode : Int

/-- Template catalog of the flag-based variant (src/lib/index.js). -/
def templeUrls : List (String × String) :=
  [("react-starter", "https://github.com/webpack/react-starter.git")]

/-- Template catalog of the interactive variant (src/unnamed/part_000). -/
def templateUrls : List (String × String) :=
  [("react-starter", "https://github.com/webpack/react-starter.git"),
   ("react-material-admin-template",
    "https://github.com/rafaelhz/react-material-admin-template.git"),
   ("react-frame-application",
    "https://github.com/zwlzwt/react-frame-application.git")]

/-- JavaScript property access catalog[key]: undefined when absent. -/
def lookupCatalog (cat : List (String × String)) (k : String) : Option String :=
  (cat.find? (fun p => p.1 == k)).map (fun p => p.2)

/-- Resolution of the --template flag, src/lib/index.js lines 145-148:
the identifier is the flag value itself and the source location is the
(possibly undefined) catalog entry.  A pure lookup: it emits no events
and performs no other effect by construction. -/
def resolveTemplate (t : String) : String × Option String :=
  (t, lookupCatalog templeUrls t)

/-- Resolution of a non-custom interactive selection (part_000 lines
213-216): same shape over the three-entry catalog. -/
def resolveTemplateInteractive (t : String) : String × Option String :=
  (t, lookupCatalog templateUrls t)

/-- checkAppName: on an invalid name it prints the header, each error
then each warning, the footer, and calls process.exit(1).  The Bool is
true when execution continues past the check. -/
def checkAppName (appName : String) (res : ValidationResult) : List Event × Bool :=
  if res.validForNewPackages then ([], true)
  else
    ([Event.logErr ("Cannot create a project named \"" ++ appName ++
        "\" because of npm naming restrictions:\n")] ++
      (res.errors ++ res.warnings).map (fun e => Event.logErr ("  * " ++ e)) ++
      [Event.logErr "\nPlease choose a different project name.", Event.exitProc 1],
     false)

/-- Arguments of the npm child process. -/
def installArgs (dependencies : List String) : List String :=
  ["install", "--save", "--loglevel", "error"] ++ dependencies

/-- Settlement of the install promise: a rejection carrying only the
command line when the child exits non-zero, a void resolution on zero. -/
def installResult (dependencies : List String) (exitCode : Int) : Except JsError Unit :=
  if exitCode != 0 then
    Except.error (JsError.rejectObj
      ("npm" ++ " " ++ String.intercalate " " (installArgs dependencies)))
  else Except.ok ()

/-- install(root, ...): spawns npm install with cwd ./root and inherited
streams, then settles according to the child exit code. -/
def install (root : String) (dependencies : List String) (exitCode : Int) :
    List Event × Except JsError Unit :=
  ([Event.spawnProc ("./" ++ root)
      (String.intercalate " " ("npm" :: installArgs dependencies)),
    Event.logOut "", Event.logOut "Install dependencies...."],
   installResult dependencies exitCode)

/-- fs.ensureDirSync: create the directory when absent, succeed and
leave it untouched when it already exists. -/
def ensureDirSync (d : DirState) : DirState :=
  if d.dirExists then d else DirState.mk true []

/-- Condition under which the workflow proceeds past the probe:
stdout truthy and containing the marker (line 87). -/
def probeOk (r : ExecResult) : Bool :=
  (!(r.stdout == "")) && strContains r.stdout "git version"

/-- Shell sequence of the history reset, line 103. -/
def resetCmd : String :=
  "rm -rf .git && git init && git add . && git commit -m \"create front-end app\""

/-- Clone command, line 97; an undefined url interpolates as the literal
text "undefined". -/
def cloneCmd (url : Option String) : String := "git clone " ++ jsShow url

/-- Warning printed when the node version check fails, lines 73-74. -/
def nodeWarnMsg (v : String) : String :=
  "You are using Node " ++ v ++
  " so the project will be bootstrapped with an old unsupported version of tools.\n\n" ++
  "Please update to Node 10 or higher for a better, fully supported experience.\n"

/-- Helper turning an Except settlement into the caught value, if any. -/
def errOf : Except JsError Unit → Option JsError
  | .error e => some e
  | .ok _ => none

/-- Events from the history-reset completion log onward (lines 105-106):
the log line and the install call. -/
def postResetEvents (env : Env) (name tn : String) : List Event :=
  Event.logOut "Delete the origin git and add new git commit first time!!!" ::
    (install (name ++ "/" ++ tn) [] env.installExitCode).1

/-- Events after the clone resolved (lines 98-106): success logs, the
stat, the conditional history reset, then the completion log and the
install — each later step emitted only when the earlier one did not
throw. -/
def afterCloneEvents (env : Env) (name tn : String) : List Event :=
  [Event.logOut "", Event.logOut "Downloading success!!!", Event.logOut "",
   Event.statPath (env.cwd ++ "/" ++ name ++ "/" ++ tn)] ++
  (match env.statResult with
   | .error _ => []
   | .ok st =>
     if st.isDirectory then
       Event.execCmd (some ("./" ++ name ++ "/" ++ tn)) resetCmd ::
         (match env.resetResult with
          | .error _ => []
          | .ok _ => postResetEvents env name tn)
     else postResetEvents env name tn)

/-- First throw from clone, stat, or history reset — the steps that run
before the installer is invoked. -/
def preInstallThrow (env : Env) : Option JsError :=
  match env.cloneResult with
  | .error e => some e
  | .ok _ =>
    match env.statResult with
    | .error e => some e
    | .ok st => if st.isDirectory then errOf env.resetResult else none

/-- Value caught by the single coarse catch handler of lines 96-110, if
any: a throw from clone, stat, or reset, or the install rejection. -/
def caughtError (env : Env) : Option JsError :=
  match preInstallThrow env with
  | some e => some e
  | none => errOf (installResult [] env.installExitCode)

/-- Contents of the target directory after the try block: the clone
populates the just-emptied directory; a failed clone leaves it empty. -/
def afterCloneContents (env : Env) : List String :=
  match env.cloneResult with
  | .ok _ => env.clonedFiles
  | .error _ => []

/-- creatApp(name, templateName, templateUrl): the whole workflow of
src/lib/index.js lines 68-113 (identical in part_000 lines 72-117), as
a pair of the event trace and the final target-directory state.  The
probe exec is assumed to complete; a rejected probe would propagate out
of the async function and every claim conditions on completion. -/
def creatApp (env : Env) (name templateName : String) (templateUrl : Option String)
    (fs : DirState) : List Event × DirState :=
  let warnEvents := if env.nodeVersionOk then [] else [Event.logOut (nodeWarnMsg env.nodeVersion)]
  let root := pathResolve env.cwd name
  let appName := pathBasename root
  let ck := checkAppName appName (env.validation appName)
  if ck.2 then
    let fs1 := ensureDirSync fs
    let pre := warnEvents ++ ck.1 ++
      [Event.ensureDir name, Event.logOut "",
       Event.logOut ("Creating a new React app in " ++ root ++ "."),
       Event.execCmd none "git --version"] ++
      (if env.gitProbe.stderr != "" then [Event.logErr env.gitProbe.stderr] else [])
    if probeOk env.gitProbe then
      (pre ++
        [Event.logOut (strTrim env.gitProbe.stdout), Event.logOut "",
         Event.logOut ("now clone the template in " ++ name ++ "...."),
         Event.emptyDir name, Event.logOut "",
         Event.logOut "Find folder successfully!",
         Event.logOut (jsShow templateUrl ++ " " ++ templateName),
         Event.execCmd (some ("./" ++ name)) (cloneCmd templateUrl)] ++
        (match env.cloneResult with
         | .error _ => []
         | .ok _ => afterCloneEvents env name templateName) ++
        (match caughtError env with
         | some e => [Event.logErr (errDisplay e)]
         | none => []),
       DirState.mk fs1.dirExists (afterCloneContents env))
    else (pre, fs1)
  else (warnEvents ++ ck.1, fs)

/-- Usage guidance printed when the positional argument is missing. -/
def usageEvents (progName sample : String) : List Event :=
  [Event.logErr "Please specify the project directory:",
   Event.logOut ("  " ++ progName ++ " <project-directory>"),
   Event.logOut "",
   Event.logOut "For example:",
   Event.logOut ("  " ++ progName ++ " " ++ sample),
   Event.logOut "",
   Event.logOut ("Run " ++ progName ++ " --help to see all options.")]

/-- init of src/lib/index.js: the flag-based entrypoint after argument
parsing.  projectName is the positional argument (none when absent) and
templateOpt the --template value; the parser supplies the default
react-starter when the flag is not given.  process.exit() with no
argument exits with status 0. -/
def init (env : Env) (projectName : Option String) (templateOpt : String)
    (fs : DirState) : List Event × DirState :=
  match projectName with
  | none => (usageEvents env.progName "Ceridian-project" ++ [Event.exitProc 0], fs)
  | some pn =>
    let r := resolveTemplate templateOpt
    creatApp env pn r.1 r.2 fs

/-- qa of src/unnamed/part_000: the answer list of the interactive
prompts — the selection alone, or selection, name and url when the
custom option was chosen. -/
def qa (selectName inName inUrl : String) : List String :=
  if selectName == "custom" then [selectName, inName, inUrl] else [selectName]

/-- init of src/unnamed/part_000, the interactive variant: destructures
the qa answers (missing positions are undefined), rejects a custom
selection with a blank answer via process.exit(), and otherwise runs
creatApp with the resolved pair. -/
def initInteractive (env : Env) (projectName : Option String)
    (selectName inName inUrl : String) (fs : DirState) : List Event × DirState :=
  match projectName with
  | none => (usageEvents env.progName "Custom-react-project" ++ [Event.exitProc 0], fs)
  | some pn =>
    let answers := qa selectName inName inUrl
    let selectAnswer := (answers.get? 0).getD ""
    let cusName := answers.get? 1
    let cusUrl := answers.get? 2
    if selectAnswer == "custom" && (jsFalsy cusName || jsFalsy cusUrl) then
      ([Event.logOut "", Event.logOut "You must input your own template!!!",
        Event.logOut "", Event.exitProc 0], fs)
    else if selectAnswer == "custom" then
      creatApp env pn (cusName.getD "") (some (cusUrl.getD "")) fs
    else
      creatApp env pn selectAnswer (lookupCatalog templateUrls selectAnswer) fs

/-- Recognizer of a clone exec event. -/
def Event.isClone : Event → Bool
  | .execCmd _ c => strStartsWith "git clone " c
  | _ => false

/-- Recognizer of the history-reset exec event. -/
def Event.isReset : Event → Bool
  | .execCmd _ c => c == resetCmd
  | _ => false

/-- Recognizer of the installer spawn event. -/
def Event.isInstallSpawn : Event → Bool
  | .spawnProc _ _ => true
  | _ => false

/-- Recognizer of a process.exit event. -/
def Event.isExit : Event → Bool
  | .exitProc _ => true
  | _ => false

/-- Recognizer of the directory-creation event. -/
def Event.isEnsure : Event → Bool
  | .ensureDir _ => true
  | _ => false

/-- Complete list of error and warning messages of a validation result
for the base name the workflow validates. -/
def violationMsgs (env : Env) (name : String) : List String :=
  (env.validation (pathBasename (pathResolve env.cwd name))).errors ++
  (env.validation (pathBasename (pathResolve env.cwd name))).warnings

/-- Target-directory state used by the concrete witnesses: an existing
directory pre-seeded with a sentinel file. -/
def dirW : DirState := DirState.mk true ["sentinel.txt"]

/-- Environment of a fully successful run, used by concrete witnesses. -/
def envW : Env :=
  Env.mk "/home/user" "react-starter-cli" "v16.14.0" true
    (fun _ => ValidationResult.mk true [] [])
    (ExecResult.mk "git version 2.30.0\n" "")
    (Except.ok ()) ["react-starter"]
    (Except.ok (FileStats.mk true)) (Except.ok ()) 0

/-- Environment whose name validation fails with one error message. -/
def envBad : Env :=
  Env.mk "/home/user" "react-starter-cli" "v16.14.0" true
    (fun _ => ValidationResult.mk false ["name cannot contain capital letters"] [])
    (ExecResult.mk "git version 2.30.0\n" "")
    (Except.ok ()) ["react-starter"]
    (Except.ok (FileStats.mk true)) (Except.ok ()) 0

/-- Environment whose probe completes without the success marker and
with diagnostic output on stderr. -/
def envNoGit : Env :=
  Env.mk "/home/user" "react-starter-cli" "v16.14.0" true
    (fun _ => ValidationResult.mk true [] [])
    (ExecResult.mk "" "command not found: git")
    (Except.ok ()) []
    (Except.ok (FileStats.mk true)) (Except.ok ()) 0

/-- Environment whose probe succeeds while also writing to stderr. -/
def envStderr : Env :=
  Env.mk "/home/user" "react-starter-cli" "v16.14.0" true
    (fun _ => ValidationResult.mk true [] [])
    (ExecResult.mk "git version 2.30.0\n" "warning: perl not found")
    (Except.ok ()) ["react-starter"]
    (Except.ok (FileStats.mk true)) (Except.ok ()) 0

/-- Environment whose clone step throws. -/
def envCloneFail : Env :=
  Env.mk "/home/user" "react-starter-cli" "v16.14.0" true
    (fun _ => ValidationResult.mk true [] [])
    (ExecResult.mk "git version 2.30.0\n" "")
    (Except.error (JsError.exn "fatal: repository not found")) []
    (Except.ok (FileStats.mk true)) (Except.ok ()) 0

/-- Events of creatApp up to and including the probe and its stderr
warning — the segment emitted whether or not the marker is present. -/
def preEvents (env : Env) (name : String) : List Event :=
  (if env.nodeVersionOk then [] else [Event.logOut (nodeWarnMsg env.nodeVersion)]) ++
  [Event.ensureDir name, Event.logOut "",
   Event.logOut ("Creating a new React app in " ++ pathResolve env.cwd name ++ "."),
   Event.execCmd none "git --version"] ++
  (if env.gitProbe.stderr != "" then [Event.logErr env.gitProbe.stderr] else [])

/-- Events of the catch handler: the single error log when something in
the try block threw or rejected, nothing otherwise. -/
def catchTail (env : Env) : List Event :=
  match caughtError env with
  | some e => [Event.logErr (errDisplay e)]
  | none => []

section Helpers

/-- Helper: a string is a prefix of itself followed by anything. -/
lemma strStartsWith_append_self (p s : String) : strStartsWith p (p ++ s) = true := by
  simp [strStartsWith, String.data_append, List.isPrefixOf_iff_prefix]

/-- Helper: the gate condition of line 87 coincides with the presence of
the success marker in stdout, because the marker is itself nonempty. -/
lemma probeOk_eq_marker (r : ExecResult) :
    probeOk r = strContains r.stdout "git version" := by
  by_cases h : r.stdout = ""
  · simp [probeOk, h]
    decide
  · simp [probeOk, h]

/-- Helper: the rendered installer command line. -/
lemma installCmd_eq :
    String.intercalate " " ("npm" :: installArgs []) =
      "npm install --save --loglevel error" := rfl

/-- Helper: shape of a creatApp run with a valid name and a probe whose
stdout lacks the marker — exactly the shared preamble, nothing more. -/
lemma creatApp_eq_of_probeFail (env : Env) (name tn : String) (url : Option String)
    (fs : DirState)
    (hvalid : (env.validation (pathBasename (pathResolve env.cwd name))).validForNewPackages
      = true)
    (hprobe : probeOk env.gitProbe = false) :
    creatApp env name tn url fs = (preEvents env name, ensureDirSync fs) := by
  simp [creatApp, checkAppName, hvalid, hprobe, preEvents]

/-- Helper: shape of a creatApp run with a valid name and the marker
present — preamble, empty-then-clone segment, post-clone events and the
catch tail, with the directory holding exactly the post-clone content. -/
lemma creatApp_eq_of_probeOk (env : Env) (name tn : String) (url : Option String)
    (fs : DirState)
    (hvalid : (env.validation (pathBasename (pathResolve env.cwd name))).validForNewPackages
      = true)
    (hprobe : probeOk env.gitProbe = true) :
    creatApp env name tn url fs =
      (preEvents env name ++
        [Event.logOut (strTrim env.gitProbe.stdout), Event.logOut "",
         Event.logOut ("now clone the template in " ++ name ++ "...."),
         Event.emptyDir name, Event.logOut "",
         Event.logOut "Find folder successfully!",
         Event.logOut (jsShow url ++ " " ++ tn),
         Event.execCmd (some ("./" ++ name)) (cloneCmd url)] ++
        (match env.cloneResult with
         | .error _ => []
         | .ok _ => afterCloneEvents env name tn) ++
        catchTail env,
       DirState.mk (ensureDirSync fs).dirExists (afterCloneContents env)) := by
  simp [creatApp, checkAppName, hvalid, hprobe, preEvents, catchTail]

/-- Helper: the stderr warning is part of the preamble whenever the
probe wrote to its diagnostic stream. -/
lemma stderr_log_mem_pre (env : Env) (name : String) (h : env.gitProbe.stderr ≠ "") :
    Event.logErr env.gitProbe.stderr ∈ preEvents env name := by
  simp [preEvents, h]

/-- Helper: the preamble contains no clone event. -/
lemma preEvents_no_clone (env : Env) (name : String) :
    (preEvents env name).any Event.isClone = false := by
  have d1 : strStartsWith "git clone " "git --version" = false := by decide
  by_cases hn : env.nodeVersionOk <;> by_cases hs : env.gitProbe.stderr = "" <;>
    simp [preEvents, hn, hs, Event.isClone, d1]

/-- Helper: the preamble contains no history-reset event. -/
lemma preEvents_no_reset (env : Env) (name : String) :
    (preEvents env name).any Event.isReset = false := by
  have d1 : ("git --version" == resetCmd) = false := by decide
  by_cases hn : env.nodeVersionOk <;> by_cases hs : env.gitProbe.stderr = "" <;>
    simp [preEvents, hn, hs, Event.isReset, d1]

/-- Helper: the preamble contains no installer spawn. -/
lemma preEvents_no_spawn (env : Env) (name : String) :
    (preEvents env name).any Event.isInstallSpawn = false := by
  by_cases hn : env.nodeVersionOk <;> by_cases hs : env.gitProbe.stderr = "" <;>
    simp [preEvents, hn, hs, Event.isInstallSpawn]

/-- Helper: the preamble contains no exit call. -/
lemma preEvents_no_exit (env : Env) (name : String) (c : Nat) :
    Event.exitProc c ∉ preEvents env name := by
  by_cases hn : env.nodeVersionOk <;> by_cases hs : env.gitProbe.stderr = "" <;>
    simp [preEvents, hn, hs]

/-- Helper: the post-clone events contain an installer spawn exactly
when neither the stat nor the conditional history reset throws. -/
lemma afterClone_spawn_iff (env : Env) (name tn : String)
    (hc : env.cloneResult = Except.ok ()) :
    ((afterCloneEvents env name tn).any Event.isInstallSpawn = true) ↔
      preInstallThrow env = none := by
  rcases hs : env.statResult with e | st
  · simp [afterCloneEvents, postResetEvents, install, preInstallThrow, hc, hs,
      Event.isInstallSpawn]
  · rcases st with ⟨d⟩
    cases d <;> rcases hr : env.resetResult with e | u <;>
      simp [afterCloneEvents, postResetEvents, install, preInstallThrow, errOf,
        hc, hs, hr, Event.isInstallSpawn]

/-- Helper: the post-clone events contain no exit call. -/
lemma afterClone_no_exit (env : Env) (name tn : String) (c : Nat) :
    Event.exitProc c ∉ afterCloneEvents env name tn := by
  rcases hs : env.statResult with e | st
  · simp [afterCloneEvents, postResetEvents, install, hs]
  · rcases st with ⟨d⟩
    cases d <;> rcases hr : env.resetResult with e | u <;>
      simp [afterCloneEvents, postResetEvents, install, hs, hr]

/-- Helper: the catch tail contains no installer spawn. -/
lemma catchTail_no_spawn (env : Env) :
    (catchTail env).any Event.isInstallSpawn = false := by
  rcases h : caughtError env with _ | e <;> simp [catchTail, h, Event.isInstallSpawn]

/-- Helper: the catch tail contains no exit call. -/
lemma catchTail_no_exit (env : Env) (c : Nat) :
    Event.exitProc c ∉ catchTail env := by
  rcases h : caughtError env with _ | e <;> simp [catchTail, h]

/-- Helper: a throw before the installer is logged by the catch tail. -/
lemma catchTail_mem_of_thrown (env : Env) (e : JsError)
    (h : preInstallThrow env = some e) :
    Event.logErr (errDisplay e) ∈ catchTail env := by
  have hc : caughtError env = some e := by simp [caughtError, h]
  simp [catchTail, hc]

end Helpers

/-- C7: for every key of either template catalog, resolving that key
yields exactly the pair of the key and the catalog entry, and resolving
the returned identifier again yields the same pair (idempotence); the
resolution functions are pure Lean lookups over the static catalogs, so
they are side-effect-free and perform no I/O by construction. -/
theorem resolve_catalog_exact :
    (∀ kv ∈ templeUrls, resolveTemplate kv.1 = (kv.1, some kv.2) ∧
      resolveTemplate (resolveTemplate kv.1).1 = resolveTemplate kv.1) ∧
    (∀ kv ∈ templateUrls, resolveTemplateInteractive kv.1 = (kv.1, some kv.2) ∧
      resolveTemplateInteractive (resolveTemplateInteractive kv.1).1 =
        resolveTemplateInteractive kv.1) := by
  decide

/-- Witness for C7 at the catalog key react-starter. -/
theorem resolve_catalog_exact_witness :
    resolveTemplate "react-starter" =
      ("react-starter", some "https://github.com/webpack/react-starter.git") :=
  (resolve_catalog_exact.1
    ("react-starter", "https://github.com/webpack/react-starter.git") (by decide)).1

/-- C8: the install promise rejects exactly when the spawned npm process
exits non-zero, every rejection value is the object carrying only the
attempted command line, and on exit code zero the promise resolves with
no value. -/
theorem install_reject_iff (root : String) (deps : List String) (code : Int) :
    ((∃ e, (install root deps code).2 = Except.error e) ↔ code ≠ 0) ∧
    (∀ e, (install root deps code).2 = Except.error e →
      e = JsError.rejectObj ("npm" ++ " " ++ String.intercalate " " (installArgs deps))) ∧
    (code = 0 → (install root deps code).2 = Except.ok ()) := by
  by_cases h : code = 0 <;> simp [install, installResult, h]

/-- Witness for C8: a non-zero exit rejects, a zero exit resolves. -/
theorem install_reject_iff_witness :
    (1 : Int) ≠ 0 ∧ (install "my-app/react-starter" [] 0).2 = Except.ok () :=
  ⟨(install_reject_iff "my-app/react-starter" [] 1).1.mp
      ⟨JsError.rejectObj ("npm" ++ " " ++ String.intercalate " " (installArgs [])), rfl⟩,
   (install_reject_iff "my-app/react-starter" [] 0).2.2 rfl⟩

/-- C9: with the positional project-directory argument missing, both
entrypoints print the usage guidance with an example invocation and exit
with status 0, creating no directory and reaching no clone or install
step; the directory state is untouched. -/
theorem missing_argument_usage (env : Env) (templateOpt selectName inName inUrl : String)
    (fs : DirState) :
    ((init env none templateOpt fs).1.getLast? = some (Event.exitProc 0) ∧
     Event.logErr "Please specify the project directory:" ∈ (init env none templateOpt fs).1 ∧
     Event.logOut ("  " ++ env.progName ++ " " ++ "Ceridian-project") ∈
       (init env none templateOpt fs).1 ∧
     (init env none templateOpt fs).1.any Event.isEnsure = false ∧
     (init env none templateOpt fs).1.any Event.isClone = false ∧
     (init env none templateOpt fs).1.any Event.isInstallSpawn = false ∧
     (init env none templateOpt fs).2 = fs) ∧
    ((initInteractive env none selectName inName inUrl fs).1.getLast? =
       some (Event.exitProc 0) ∧
     Event.logErr "Please specify the project directory:" ∈
       (initInteractive env none selectName inName inUrl fs).1 ∧
     Event.logOut ("  " ++ env.progName ++ " " ++ "Custom-react-project") ∈
       (initInteractive env none selectName inName inUrl fs).1 ∧
     (initInteractive env none selectName inName inUrl fs).1.any Event.isEnsure = false ∧
     (initInteractive env none selectName inName inUrl fs).1.any Event.isClone = false ∧
     (initInteractive env none selectName inName inUrl fs).1.any Event.isInstallSpawn = false ∧
     (initInteractive env none selectName inName inUrl fs).2 = fs) := by
  constructor <;>
    refine ⟨List.getLast?_concat _, ?_, ?_, ?_, ?_, ?_, rfl⟩ <;>
      simp [init, initInteractive, usageEvents, Event.isEnsure, Event.isClone,
        Event.isInstallSpawn]

/-- C4: when validation of the base name of the absolute path resolved
from the requested name fails, the run prints the nonempty ordered list
of violation messages, terminates with process.exit(1) as its last
action, never reaches the directory-creation step, and leaves the
directory state untouched.  The nonemptiness hypothesis is the
validate-npm-package-name contract: an invalid result always carries at
least one error or warning. -/
theorem invalid_name_fatal (env : Env) (name tn : String) (url : Option String)
    (fs : DirState)
    (hinv : (env.validation (pathBasename (pathResolve env.cwd name))).validForNewPackages
      = false)
    (hmsgs : violationMsgs env name ≠ []) :
    ((violationMsgs env name).map (fun m => Event.logErr ("  * " ++ m))) ≠ [] ∧
    List.IsInfix ((violationMsgs env name).map (fun m => Event.logErr ("  * " ++ m)))
      (creatApp env name tn url fs).1 ∧
    (creatApp env name tn url fs).1.getLast? = some (Event.exitProc 1) ∧
    (creatApp env name tn url fs).1.any Event.isEnsure = false ∧
    (creatApp env name tn url fs).2 = fs := by
  have htr : creatApp env name tn url fs =
      ((if env.nodeVersionOk then [] else [Event.logOut (nodeWarnMsg env.nodeVersion)]) ++
        (Event.logErr ("Cannot create a project named \"" ++
            pathBasename (pathResolve env.cwd name) ++
            "\" because of npm naming restrictions:\n") ::
          ((violationMsgs env name).map (fun m => Event.logErr ("  * " ++ m)) ++
            [Event.logErr "\nPlease choose a different project name.",
             Event.exitProc 1])), fs) := by
    simp [creatApp, checkAppName, hinv, violationMsgs]
  refine ⟨by simpa using hmsgs, ?_, ?_, ?_, by rw [htr]⟩
  · rw [htr]
    exact ⟨(if env.nodeVersionOk then [] else [Event.logOut (nodeWarnMsg env.nodeVersion)]) ++
        [Event.logErr ("Cannot create a project named \"" ++
          pathBasename (pathResolve env.cwd name) ++
          "\" because of npm naming restrictions:\n")],
      [Event.logErr "\nPlease choose a different project name.", Event.exitProc 1],
      by simp⟩
  · rw [htr]
    rw [show (Event.logErr ("Cannot create a project named \"" ++
        pathBasename (pathResolve env.cwd name) ++
        "\" because of npm naming restrictions:\n") ::
        ((violationMsgs env name).map (fun m => Event.logErr ("  * " ++ m)) ++
          [Event.logErr "\nPlease choose a different project name.",
           Event.exitProc 1])) =
        (Event.logErr ("Cannot create a project named \"" ++
          pathBasename (pathResolve env.cwd name) ++
          "\" because of npm naming restrictions:\n") ::
         ((violationMsgs env name).map (fun m => Event.logErr ("  * " ++ m)) ++
          [Event.logErr "\nPlease choose a different project name."])) ++
        [Event.exitProc 1] from by simp, ← List.append_assoc]
    exact List.getLast?_concat _
  · rw [htr]
    by_cases hn : env.nodeVersionOk <;>
      simp [hn, Event.isEnsure, List.any_map, Function.comp]

/-- Witness for C4 at a concrete invalid name. -/
theorem invalid_name_fatal_witness :
    (envBad.validation (pathBasename (pathResolve envBad.cwd "My App"))).validForNewPackages
      = false ∧
    (creatApp envBad "My App" "react-starter" (some "u") dirW).1.getLast? =
      some (Event.exitProc 1) ∧
    (creatApp envBad "My App" "react-starter" (some "u") dirW).1.any Event.isEnsure
      = false :=
  ⟨by decide,
   (invalid_name_fatal envBad "My App" "react-starter" (some "u") dirW
      (by decide) (by decide)).2.2.1,
   (invalid_name_fatal envBad "My App" "react-starter" (some "u") dirW
      (by decide) (by decide)).2.2.2.1⟩

/-- C5: in the interactive flow a custom selection with a blank answer
prints the corrective message and exits with status 0 before any further
action — the trace is exactly those four events, so no directory
creation, clone or install happens and the directory state is untouched
— while two non-blank answers make the workflow proceed into creatApp
with exactly that name and location pair. -/
theorem custom_template_blank_guard (env : Env) (pn inName inUrl : String)
    (fs : DirState) :
    (inName = "" ∨ inUrl = "" →
      initInteractive env (some pn) "custom" inName inUrl fs =
        ([Event.logOut "", Event.logOut "You must input your own template!!!",
          Event.logOut "", Event.exitProc 0], fs)) ∧
    (inName ≠ "" → inUrl ≠ "" →
      initInteractive env (some pn) "custom" inName inUrl fs =
        creatApp env pn inName (some inUrl) fs) := by
  constructor
  · rintro (h | h) <;> simp [initInteractive, qa, jsFalsy, h]
  · intro h1 h2
    simp [initInteractive, qa, jsFalsy, h1, h2]

/-- Witness for C5: a blank url exits with status 0, a full custom pair
proceeds into creatApp with exactly that pair. -/
theorem custom_template_blank_guard_witness :
    initInteractive envW (some "my-app") "custom" "foo" "" dirW =
      ([Event.logOut "", Event.logOut "You must input your own template!!!",
        Event.logOut "", Event.exitProc 0], dirW) ∧
    initInteractive envW (some "my-app") "custom" "foo" "https://example.com/foo.git" dirW =
      creatApp envW "my-app" "foo" (some "https://example.com/foo.git") dirW :=
  ⟨(custom_template_blank_guard envW "my-app" "foo" "" dirW).1 (Or.inr rfl),
   (custom_template_blank_guard envW "my-app" "foo" "https://example.com/foo.git" dirW).2
     (by decide) (by decide)⟩

/-- C10: a --template value outside the catalog resolves to an undefined
source location with no error raised at resolution time, init proceeds
into creatApp with that undefined location, and whenever the probe
succeeds the clone is attempted with the literal text undefined as its
target. -/
theorem unknown_template_clone_undefined (env : Env) (pn flag : String) (fs : DirState)
    (hflag : lookupCatalog templeUrls flag = none)
    (hvalid : (env.validation (pathBasename (pathResolve env.cwd pn))).validForNewPackages
      = true)
    (hprobe : probeOk env.gitProbe = true) :
    resolveTemplate flag = (flag, none) ∧
    init env (some pn) flag fs = creatApp env pn flag none fs ∧
    Event.execCmd (some ("./" ++ pn)) "git clone undefined" ∈
      (init env (some pn) flag fs).1 := by
  have hr : resolveTemplate flag = (flag, none) := by
    simp [resolveTemplate, hflag]
  have hi : init env (some pn) flag fs = creatApp env pn flag none fs := by
    simp [init, hr]
  refine ⟨hr, hi, ?_⟩
  rw [hi]
  have hcc : cloneCmd none = "git clone undefined" := rfl
  simp [creatApp, checkAppName, hvalid, hprobe, hcc]

/-- Witness for C10 at a concrete unknown template value. -/
theorem unknown_template_clone_undefined_witness :
    lookupCatalog templeUrls "micro-starter" = none ∧
    Event.execCmd (some ("./" ++ "my-app")) "git clone undefined" ∈
      (init envW (some "my-app") "micro-starter" dirW).1 :=
  ⟨by decide,
   (unknown_template_clone_undefined envW "my-app" "micro-starter" dirW
      (by decide) (by decide) (by decide)).2.2⟩

/-- C1: for every run in which the probe completed, output on the
diagnostic stream is printed as an error log without aborting the run;
the clone, history-reset and install steps are reached only when stdout
carries the marker git version; and with the marker absent the run
stops silently — no clone, no reset, no install, and no exit call of
any status. -/
theorem probe_gate (env : Env) (name tn : String) (url : Option String) (fs : DirState)
    (hvalid : (env.validation (pathBasename (pathResolve env.cwd name))).validForNewPackages
      = true) :
    (env.gitProbe.stderr ≠ "" →
      Event.logErr env.gitProbe.stderr ∈ (creatApp env name tn url fs).1) ∧
    (strContains env.gitProbe.stdout "git version" = true →
      (creatApp env name tn url fs).1.any Event.isClone = true) ∧
    (strContains env.gitProbe.stdout "git version" = false →
      (creatApp env name tn url fs).1.any Event.isClone = false ∧
      (creatApp env name tn url fs).1.any Event.isReset = false ∧
      (creatApp env name tn url fs).1.any Event.isInstallSpawn = false ∧
      ∀ c, Event.exitProc c ∉ (creatApp env name tn url fs).1) := by
  have hmk := probeOk_eq_marker env.gitProbe
  by_cases hp : probeOk env.gitProbe = true
  · rw [creatApp_eq_of_probeOk env name tn url fs hvalid hp]
    refine ⟨fun h => ?_, fun _ => ?_, fun h => ?_⟩
    · exact List.mem_append_left _ (List.mem_append_left _
        (List.mem_append_left _ (stderr_log_mem_pre env name h)))
    · have h1 : Event.isClone (Event.execCmd (some ("./" ++ name)) (cloneCmd url))
          = true := by
        simp [Event.isClone, cloneCmd, strStartsWith_append_self]
      simp [List.any_append, List.any_cons, h1]
    · rw [hmk, h] at hp
      exact Bool.noConfusion hp
  · have hp' : probeOk env.gitProbe = false := by simpa using hp
    rw [creatApp_eq_of_probeFail env name tn url fs hvalid hp']
    refine ⟨fun h => stderr_log_mem_pre env name h, fun h => ?_, fun _ => ?_⟩
    · rw [hmk, h] at hp'
      exact Bool.noConfusion hp'
    · exact ⟨preEvents_no_clone env name, preEvents_no_reset env name,
        preEvents_no_spawn env name, preEvents_no_exit env name⟩

/-- Witness for C1: a probe with stderr output and the marker still
clones, and a probe without the marker never clones. -/
theorem probe_gate_witness :
    (envStderr.gitProbe.stderr ≠ "" ∧
      Event.logErr envStderr.gitProbe.stderr ∈
        (creatApp envStderr "my-app" "react-starter" (some "u") dirW).1) ∧
    (creatApp envStderr "my-app" "react-starter" (some "u") dirW).1.any Event.isClone
      = true ∧
    (creatApp envNoGit "my-app" "react-starter" (some "u") dirW).1.any Event.isClone
      = false :=
  ⟨⟨by decide,
    (probe_gate envStderr "my-app" "react-starter" (some "u") dirW (by decide)).1
      (by decide)⟩,
   (probe_gate envStderr "my-app" "react-starter" (some "u") dirW (by decide)).2.1
     (by decide),
   ((probe_gate envNoGit "my-app" "react-starter" (some "u") dirW (by decide)).2.2
     (by decide)).1⟩

/-- C2: the directory-creation step succeeds without change on an
already existing directory, the target is emptied before the clone runs
(the empty event strictly precedes the clone event in the trace), and
after a successful clone the directory holds exactly the cloned content,
so every prior file not re-introduced by the clone is gone. -/
theorem ensure_and_destructive_empty (env : Env) (name tn : String) (url : Option String)
    (fs : DirState)
    (hvalid : (env.validation (pathBasename (pathResolve env.cwd name))).validForNewPackages
      = true)
    (hex : fs.dirExists = true)
    (hprobe : probeOk env.gitProbe = true)
    (hclone : env.cloneResult = Except.ok ()) :
    ensureDirSync fs = fs ∧
    (∃ l1 l2, (creatApp env name tn url fs).1 = l1 ++ Event.emptyDir name :: l2 ∧
      Event.execCmd (some ("./" ++ name)) (cloneCmd url) ∈ l2) ∧
    (creatApp env name tn url fs).2.contents = env.clonedFiles ∧
    (∀ f ∈ fs.contents, f ∉ env.clonedFiles →
      f ∉ (creatApp env name tn url fs).2.contents) := by
  have hens : ensureDirSync fs = fs := by simp [ensureDirSync, hex]
  have hmain := creatApp_eq_of_probeOk env name tn url fs hvalid hprobe
  have hcontents : (creatApp env name tn url fs).2.contents = env.clonedFiles := by
    rw [hmain]
    simp [afterCloneContents, hclone]
  refine ⟨hens, ?_, hcontents, fun f hf hnot => by rw [hcontents]; exact hnot⟩
  rw [hmain]
  refine ⟨preEvents env name ++
      [Event.logOut (strTrim env.gitProbe.stdout), Event.logOut "",
       Event.logOut ("now clone the template in " ++ name ++ "....")],
    [Event.logOut "", Event.logOut "Find folder successfully!",
     Event.logOut (jsShow url ++ " " ++ tn),
     Event.execCmd (some ("./" ++ name)) (cloneCmd url)] ++
      (match env.cloneResult with
       | .error _ => []
       | .ok _ => afterCloneEvents env name tn) ++ catchTail env,
    by simp, by simp⟩

/-- Witness for C2: a pre-seeded sentinel file is gone after the run. -/
theorem ensure_and_destructive_empty_witness :
    dirW.dirExists = true ∧ "sentinel.txt" ∈ dirW.contents ∧
    "sentinel.txt" ∉ (creatApp envW "my-app" "react-starter" (some "u") dirW).2.contents :=
  ⟨by decide, by decide,
   (ensure_and_destructive_empty envW "my-app" "react-starter" (some "u") dirW
      (by decide) (by decide) (by decide) rfl).2.2.2 "sentinel.txt"
      (by decide) (by decide)⟩

/-- C3: with the probe succeeded, a throw from clone, stat or history
reset is caught by the single coarse handler, logged to error output,
and the run ends without invoking the installer and without any exit
call; the installer is invoked exactly when none of those steps throws. -/
theorem coarse_catch (env : Env) (name tn : String) (url : Option String) (fs : DirState)
    (hvalid : (env.validation (pathBasename (pathResolve env.cwd name))).validForNewPackages
      = true)
    (hprobe : probeOk env.gitProbe = true) :
    ((creatApp env name tn url fs).1.any Event.isInstallSpawn = true ↔
      preInstallThrow env = none) ∧
    (∀ e, preInstallThrow env = some e →
      Event.logErr (errDisplay e) ∈ (creatApp env name tn url fs).1 ∧
      (creatApp env name tn url fs).1.any Event.isInstallSpawn = false) ∧
    (∀ c, Event.exitProc c ∉ (creatApp env name tn url fs).1) := by
  rw [creatApp_eq_of_probeOk env name tn url fs hvalid hprobe]
  have hmidspawn : ([Event.logOut (strTrim env.gitProbe.stdout), Event.logOut "",
      Event.logOut ("now clone the template in " ++ name ++ "...."),
      Event.emptyDir name, Event.logOut "",
      Event.logOut "Find folder successfully!",
      Event.logOut (jsShow url ++ " " ++ tn),
      Event.execCmd (some ("./" ++ name)) (cloneCmd url)]).any Event.isInstallSpawn
      = false := by
    simp [Event.isInstallSpawn]
  refine ⟨?_, ?_, ?_⟩
  · rcases hc : env.cloneResult with e | u
    · simp [List.any_append, preEvents_no_spawn, hmidspawn, catchTail_no_spawn, hc,
        preInstallThrow, Event.isInstallSpawn]
    · simp only [hc, List.any_append, preEvents_no_spawn, hmidspawn,
        catchTail_no_spawn, Bool.false_or, Bool.or_false]
      exact afterClone_spawn_iff env name tn hc
  · intro e he
    have hm := catchTail_mem_of_thrown env e he
    constructor
    · exact List.mem_append_right _ hm
    · rcases hc : env.cloneResult with e2 | u
      · simp [List.any_append, preEvents_no_spawn, hmidspawn, catchTail_no_spawn, hc,
          Event.isInstallSpawn]
      · have hiff := afterClone_spawn_iff env name tn hc
        have hfalse : (afterCloneEvents env name tn).any Event.isInstallSpawn = false := by
          cases hb : (afterCloneEvents env name tn).any Event.isInstallSpawn
          · rfl
          · exact absurd (hiff.mp hb) (by simp [he])
        simp [List.any_append, preEvents_no_spawn, hmidspawn, catchTail_no_spawn,
          hc, hfalse, Event.isInstallSpawn]
  · intro c hmem
    rcases List.mem_append.mp hmem with h | h
    · rcases List.mem_append.mp h with h2 | h2
      · rcases List.mem_append.mp h2 with h3 | h3
        · exact preEvents_no_exit env name c h3
        · simp at h3
      · rcases hc : env.cloneResult with e | u
        · rw [hc] at h2
          simp at h2
        · rw [hc] at h2
          exact afterClone_no_exit env name tn c h2
    · exact catchTail_no_exit env c h

/-- Witness for C3: a throwing clone is logged and no installer runs. -/
theorem coarse_catch_witness :
    preInstallThrow envCloneFail = some (JsError.exn "fatal: repository not found") ∧
    Event.logErr (errDisplay (JsError.exn "fatal: repository not found")) ∈
      (creatApp envCloneFail "my-app" "react-starter" (some "u") dirW).1 ∧
    (creatApp envCloneFail "my-app" "react-starter" (some "u") dirW).1.any
      Event.isInstallSpawn = false :=
  ⟨rfl,
   ((coarse_catch envCloneFail "my-app" "react-starter" (some "u") dirW (by decide)
       (by decide)).2.1 (JsError.exn "fatal: repository not found") rfl).1,
   ((coarse_catch envCloneFail "my-app" "react-starter" (some "u") dirW (by decide)
       (by decide)).2.1 (JsError.exn "fatal: repository not found") rfl).2⟩

/-- C6: after a successful clone whose nested path is a directory, the
run executes the history-reset shell sequence — remove the metadata,
init a fresh repository, stage all files, commit once with the fixed
message create front-end app — with the nested directory as its working
directory, and the installer is invoked against that nested path. -/
theorem history_reset_and_install (env : Env) (name tn : String) (url : Option String)
    (fs : DirState)
    (hvalid : (env.validation (pathBasename (pathResolve env.cwd name))).validForNewPackages
      = true)
    (hprobe : probeOk env.gitProbe = true)
    (hclone : env.cloneResult = Except.ok ())
    (hstat : env.statResult = Except.ok (FileStats.mk true))
    (hreset : env.resetResult = Except.ok ()) :
    Event.execCmd (some ("./" ++ name ++ "/" ++ tn))
      "rm -rf .git && git init && git add . && git commit -m \"create front-end app\"" ∈
      (creatApp env name tn url fs).1 ∧
    Event.spawnProc ("./" ++ (name ++ "/" ++ tn)) "npm install --save --loglevel error" ∈
      (creatApp env name tn url fs).1 := by
  rw [creatApp_eq_of_probeOk env name tn url fs hvalid hprobe]
  have hrc : resetCmd =
      "rm -rf .git && git init && git add . && git commit -m \"create front-end app\"" :=
    rfl
  constructor <;>
    simp [afterCloneEvents, postResetEvents, install, hclone, hstat, hreset,
      installCmd_eq, ← hrc, List.mem_append]

/-- Witness for C6 at a fully successful concrete run. -/
theorem history_reset_and_install_witness :
    Event.execCmd (some ("./" ++ "my-app" ++ "/" ++ "react-starter"))
      "rm -rf .git && git init && git add . && git commit -m \"create front-end app\"" ∈
      (creatApp envW "my-app" "react-starter" (some "u") dirW).1 ∧
    Event.spawnProc ("./" ++ ("my-app" ++ "/" ++ "react-starter"))
      "npm install --save --loglevel error" ∈
      (creatApp envW "my-app" "react-starter" (some "u") dirW).1 :=
  ⟨(history_reset_and_install envW "my-app" "react-starter" (some "u") dirW
      (by decide) (by decide) rfl rfl rfl).1,
   (history_reset_and_install envW "my-app" "react-starter" (some "u") dirW
      (by decide) (by decide) rfl rfl rfl).2⟩

end CLI
